import Mathlib

/-!
Verification of the pi_server streaming pipeline.

The development shallowly embeds the two hardware modules of the repository:

* the RTL-SDR module (`startStream` / `processSDRData` / `stopStream` /
  `checkAvailability`), and
* the camera module (`modules/pi-camera.js`).

Numeric conventions: JavaScript numbers are modelled exactly — byte decoding
`(byte - 127.5) / 127.5` over `ℚ`, magnitudes over `ℝ` via `Real.sqrt`.
The JavaScript values `NaN` and `-Infinity`, which the statistics code can
produce (`0/0` from averaging an empty list, `Math.max()` with no
arguments), are represented explicitly: `Option` with `none` for `NaN`
inside the sample pipeline, and the `JSNum` tagged type for the delivered
statistics. Floating-point rounding is not modelled; no claim depends on it.

Buffers are modelled as `List ℕ` of byte values; `Buffer` indexing past the
end yields JavaScript `undefined`, modelled by `List.get?` returning `none`
(arithmetic on `undefined` yields `NaN`, i.e. `none`).
-/

namespace PiServer

/-- Result of a JavaScript floating-point computation as stored in the
delivered statistics: a finite number (modelled exactly), `NaN`, or
`-Infinity`. -/
inductive JSNum where
  | fin : ℝ → JSNum
  | nan : JSNum
  | neginf : JSNum

/-- Decoding of one byte of the IQ stream, from part_000 line 108:
`(data[i] - 127.5) / 127.5`.  `none` (JS `undefined`, from reading past the
end of the Buffer) decodes to `NaN` (`none`). -/
def decodeByte (b : Option ℕ) : Option ℚ :=
  b.map (fun v => ((v : ℚ) - 127.5) / 127.5)

/-- One decoded IQ sample, part_000 lines 111-115.  `none` stands for a
`NaN` component. -/
structure IQSample where
  i : Option ℚ
  q : Option ℚ
  magnitude : Option ℝ

/-- Sample construction, part_000 lines 106-115: decode the two bytes and
attach `magnitude = Math.sqrt(i*i + q*q)`; any `NaN` input makes the
magnitude `NaN`. -/
noncomputable def mkSample (bi bq : Option ℕ) : IQSample :=
  let iv := decodeByte bi
  let qv := decodeByte bq
  { i := iv
    q := qv
    magnitude :=
      match iv, qv with
      | some a, some b => some (Real.sqrt ((a : ℝ) * (a : ℝ) + (b : ℝ) * (b : ℝ)))
      | _, _ => none }

/-- Cap on samples decoded from one chunk, part_000 line 103. -/
def maxSamples : ℕ := 1024

/-- Number of loop iterations of part_000 line 106 for a chunk of `len`
bytes.  The source computes `numSamples = Math.min(len / 2, 1024)` as a JS
float and loops `for (i = 0; i < numSamples * 2; i += 2)`, which runs
`⌈min(len / 2, 1024)⌉ = min(⌈len / 2⌉, 1024)` times. -/
def numDecoded (len : ℕ) : ℕ :=
  min ((len + 1) / 2) maxSamples

/-- The full list of samples decoded from one chunk (part_000 loop,
lines 106-116).  Iteration `k` reads bytes `2k` and `2k+1`; for an odd-length
chunk the final iteration reads past the end of the Buffer (JS `undefined`). -/
noncomputable def decodedSamples (data : List ℕ) : List IQSample :=
  (List.range (numDecoded data.length)).map
    (fun k => mkSample (data.get? (2 * k)) (data.get? (2 * k + 1)))

/-- JS `magnitudes.reduce((a, b) => a + b, 0)` (part_000 line 120): left
fold starting at 0, with `NaN` (`none`) absorbing. -/
def jsSum (ms : List (Option ℝ)) : Option ℝ :=
  ms.foldl
    (fun acc m =>
      match acc, m with
      | some a, some b => some (a + b)
      | _, _ => none)
    (some 0)

/-- JS average `reduce(...) / magnitudes.length` (part_000 line 120): on an
empty list this is `0 / 0 = NaN`; a `NaN` summand makes the sum `NaN`. -/
noncomputable def jsAvg (ms : List (Option ℝ)) : JSNum :=
  if ms.length = 0 then JSNum.nan
  else
    match jsSum ms with
    | none => JSNum.nan
    | some s => JSNum.fin (s / (ms.length : ℝ))

/-- Whether some element of the list is `NaN`. -/
def hasNaN (ms : List (Option ℝ)) : Bool :=
  ms.any (fun m => m.isNone)

/-- JS `Math.max(...magnitudes)` (part_000 line 121): `-Infinity` on no
arguments, `NaN` if any argument is `NaN`, otherwise the maximum. -/
noncomputable def jsMax : List (Option ℝ) → JSNum
  | [] => JSNum.neginf
  | m :: rest =>
      if hasNaN (m :: rest) then JSNum.nan
      else JSNum.fin ((rest.map (fun o => o.getD 0)).foldl max (m.getD 0))

/-- SDR stream configuration (part_000 lines 8-11). -/
structure SDRConfig where
  frequency : ℚ
  sampleRate : ℚ
  gain : ℚ

/-- Statistics block of a data message, part_000 lines 130-134.  The source
formats the two magnitudes with `.toFixed(4)` before sending; that decimal
formatting (which maps `NaN` to the string `"NaN"`) is presentation-only
and omitted — the fields here hold the computed values. -/
structure SDRStats where
  avgMagnitude : JSNum
  maxMagnitude : JSNum
  bytesReceived : ℕ

/-- A `type: 'data'` message, part_000 lines 123-135. -/
structure SDRMessage where
  timestamp : ℕ
  frequency : ℚ
  sampleRate : ℚ
  numSamples : ℕ
  samples : List IQSample
  stats : SDRStats

/-- Embedding of `processSDRData(data, config)` (part_000 lines 97-136).
`Date.now()` is passed in as `now`. -/
noncomputable def processSDRData (data : List ℕ) (config : SDRConfig) (now : ℕ) :
    SDRMessage :=
  let samples := decodedSamples data
  let magnitudes := samples.map (fun s => s.magnitude)
  { timestamp := now
    frequency := config.frequency
    sampleRate := config.sampleRate
    numSamples := samples.length
    samples := samples.take 256
    stats :=
      { avgMagnitude := jsAvg magnitudes
        maxMagnitude := jsMax magnitudes
        bytesReceived := data.length } }

/-- Configuration used for concrete instances in witnesses (the spec's
end-to-end example values). -/
def cfg0 : SDRConfig :=
  { frequency := 100000000, sampleRate := 2048000, gain := 0 }

/-- Tagged message delivered to the client callback: `{type: 'data'}`,
`{type: 'status'}` or `{type: 'error'}`. -/
inductive OutputMessage where
  | data : SDRMessage → OutputMessage
  | status : String → OutputMessage
  | error : String → OutputMessage

/-- Externally visible effect of a module operation: spawning a child
process, sending it a kill signal (`ChildProcess.kill` never raises, even
on an already-exited process, so the effect is total), or invoking the
registered delivery callback with a message. -/
inductive Eff where
  | spawn : ℕ → Eff
  | kill : ℕ → Eff
  | deliver : ℕ → OutputMessage → Eff

/-- Module-level mutable state of the RTL-SDR module (part_000 lines 3-4):
`rtlProcess` holds the live child-process handle (`none` = JS `null`) and
`dataCallback` the registered delivery callback, both identified by ids. -/
structure SdrState where
  rtlProcess : Option ℕ
  dataCallback : Option ℕ

/-- Embedding of `stopStream()` (part_000 lines 141-148): if a process
handle exists, kill it and null out both the handle and the callback;
otherwise do nothing at all. -/
def sdrStop (s : SdrState) : SdrState × List Eff :=
  match s.rtlProcess with
  | some p => (⟨none, none⟩, [Eff.kill p])
  | none => (s, [])

/-- Embedding of `startStream(config, callback)` (part_000 lines 14-44):
if a process is already running, `stopStream()` first; then store the
callback and spawn a fresh process (`newPid`).  Argument-list construction
from `config` and the try/catch around `spawn` are not modelled (a
synchronous spawn failure is out of scope of the claims). -/
def sdrStart (s : SdrState) (_cfg : SDRConfig) (cb : ℕ) (newPid : ℕ) :
    SdrState × List Eff :=
  let first :=
    match s.rtlProcess with
    | some _ => sdrStop s
    | none => (s, [])
  (⟨some newPid, some cb⟩, first.2 ++ [Eff.spawn newPid])

/-- The `stdout.on('data')` handler (part_000 lines 38-44): reads the
module-level `dataCallback` at event time; if set, processes the chunk and
delivers a `data` message; module state is untouched. -/
noncomputable def sdrOnStdout (s : SdrState) (cfg : SDRConfig) (now : ℕ)
    (data : List ℕ) : SdrState × List Eff :=
  (s,
    match s.dataCallback with
    | some cb => [Eff.deliver cb (OutputMessage.data (processSDRData data cfg now))]
    | none => [])

/-- The `stderr.on('data')` handler (part_000 lines 46-57): if a callback
is registered, deliver a `status` message with the trimmed text. -/
def sdrOnStderr (s : SdrState) (text : String) : SdrState × List Eff :=
  (s,
    match s.dataCallback with
    | some cb => [Eff.deliver cb (OutputMessage.status text.trim)]
    | none => [])

/-- The `on('error')` handler (part_000 lines 59-67): deliver an `error`
message if a callback is registered; state untouched. -/
def sdrOnError (s : SdrState) (msg : String) : SdrState × List Eff :=
  (s,
    match s.dataCallback with
    | some cb => [Eff.deliver cb (OutputMessage.error msg)]
    | none => [])

/-- The `on('close')` handler (part_000 lines 69-78): null the process
handle, then — the callback is NOT cleared — deliver
`Process stopped (exit code: c)` if a callback is registered. -/
def sdrOnClose (s : SdrState) (code : Int) : SdrState × List Eff :=
  (⟨none, s.dataCallback⟩,
    match s.dataCallback with
    | some cb =>
        [Eff.deliver cb (OutputMessage.status
          ("Process stopped (exit code: " ++ toString code ++ ")"))]
    | none => [])

/-- Sequential arrival of several stdout chunks: each chunk event is handled
from the state the previous one left behind. -/
noncomputable def runChunks (s : SdrState) (cfg : SDRConfig) (now : ℕ) :
    List (List ℕ) → List (List Eff)
  | [] => []
  | c :: cs =>
      let step := sdrOnStdout s cfg now c
      step.2 :: runChunks step.1 cfg now cs

/-- Module-level mutable state of the camera module (pi-camera.js
lines 5-7). -/
structure CamState where
  cameraProcess : Option ℕ
  isStreaming : Bool
  currentFrame : Option (List ℕ)

/-- The `{success, message}` object the camera operations return. -/
structure CamResult where
  success : Bool
  message : String

/-- Embedding of the camera `startStream()` (pi-camera.js lines 18-66):
when already streaming it returns immediately — no teardown of the running
process and no new spawn; otherwise it spawns a fresh process, sets the
streaming flag and leaves the current frame alone. -/
def camStart (s : CamState) (newPid : ℕ) : CamState × List Eff × CamResult :=
  if s.isStreaming then
    (s, [], { success := true, message := "Camera already streaming" })
  else
    (⟨some newPid, true, s.currentFrame⟩, [Eff.spawn newPid],
      { success := true, message := "Camera streaming started" })

/-- Embedding of the camera `stopStream()` (pi-camera.js lines 71-80):
kill the process if one exists, and unconditionally clear the handle, the
streaming flag and the current frame. -/
def camStop (s : CamState) : CamState × List Eff × CamResult :=
  let effs :=
    match s.cameraProcess with
    | some p => [Eff.kill p]
    | none => []
  (⟨none, false, none⟩, effs, { success := true, message := "Camera streaming stopped" })

/-- The camera `stdout.on('data')` handler (pi-camera.js lines 37-39):
record the chunk as the current frame. -/
def camOnStdout (s : CamState) (data : List ℕ) : CamState :=
  { s with currentFrame := some data }

/-- The camera `on('error')` handler (pi-camera.js lines 45-49): clear the
streaming flag and the process handle; the current frame is retained. -/
def camOnError (s : CamState) : CamState :=
  { s with isStreaming := false, cameraProcess := none }

/-- The camera `on('close')` handler (pi-camera.js lines 51-56): clear the
handle, the flag and the frame.  It only logs to the console — no message
is delivered anywhere (the camera module has no delivery callback). -/
def camOnClose (_s : CamState) (_code : Int) : CamState × List Eff :=
  (⟨none, false, none⟩, [])

/-- Embedding of `getCurrentFrame()` (pi-camera.js lines 85-87). -/
def getCurrentFrame (s : CamState) : Option (List ℕ) :=
  s.currentFrame

/-- Embedding of `getStreamingStatus()` (pi-camera.js lines 92-94). -/
def getStreamingStatus (s : CamState) : Bool :=
  s.isStreaming

/-- What the availability probe `rtl_test -t` would do if left alone:
exit at time `t` ms with exit code `code`, fail to spawn (the `error`
event), or run forever. -/
inductive ProbeBehavior where
  | exits : ℕ → Int → ProbeBehavior
  | spawnFails : ProbeBehavior
  | runsForever : ProbeBehavior

/-- Timeout of the availability probe (part_000 line 170). -/
def probeTimeoutMs : ℕ := 2000

/-- Outcome of one `checkAvailability()` call: the boolean the promise
resolves to, whether the 2-second timer's `kill()` fired, and whether the
probe process had already exited on its own before the timer. -/
structure ProbeRun where
  result : Bool
  killSentAtTimeout : Bool
  processExitedOnItsOwn : Bool

/-- Embedding of `checkAvailability()` (part_000 lines 154-172).  The
promise settles on the first `resolve`: `close` before the timeout resolves
`code === 0`; the `error` event resolves `false`; otherwise the 2-second
timer resolves `false`.  The `setTimeout` is never cleared, so its
`testProcess.kill()` always executes (a no-op on an already-exited
process); a probe still alive at the timeout is therefore killed. -/
def checkAvailability : ProbeBehavior → ProbeRun
  | ProbeBehavior.exits t code =>
      if t < probeTimeoutMs then
        { result := code == 0, killSentAtTimeout := true, processExitedOnItsOwn := true }
      else
        { result := false, killSentAtTimeout := true, processExitedOnItsOwn := false }
  | ProbeBehavior.spawnFails =>
      { result := false, killSentAtTimeout := true, processExitedOnItsOwn := false }
  | ProbeBehavior.runsForever =>
      { result := false, killSentAtTimeout := true, processExitedOnItsOwn := false }

/-- A probe process is orphaned when it neither exited on its own nor was
sent the timeout kill. -/
def probeOrphaned (r : ProbeRun) : Bool :=
  !r.processExitedOnItsOwn && !r.killSentAtTimeout

/-- C1: every in-range byte pair `(b1, b2)` read by the decoding loop of a
chunk decodes to `i = (b1 - 127.5) / 127.5` and `q = (b2 - 127.5) / 127.5`,
both in `[-1, 1]`, and the sample's magnitude is `sqrt(i² + q²)`. -/
theorem decoded_pair_in_unit_square (data : List ℕ) (k b1 b2 : ℕ)
    (hb1 : b1 ≤ 255) (hb2 : b2 ≤ 255) (hk : k < maxSamples)
    (h1 : data.get? (2 * k) = some b1) (h2 : data.get? (2 * k + 1) = some b2) :
    ∃ iv qv : ℚ,
      (decodedSamples data).get? k = some (mkSample (some b1) (some b2)) ∧
      (mkSample (some b1) (some b2)).i = some iv ∧
      (mkSample (some b1) (some b2)).q = some qv ∧
      iv = ((b1 : ℚ) - 127.5) / 127.5 ∧
      qv = ((b2 : ℚ) - 127.5) / 127.5 ∧
      -1 ≤ iv ∧ iv ≤ 1 ∧ -1 ≤ qv ∧ qv ≤ 1 ∧
      (mkSample (some b1) (some b2)).magnitude =
        some (Real.sqrt ((iv : ℝ) * (iv : ℝ) + (qv : ℝ) * (qv : ℝ))) := by
  have hb1q : (b1 : ℚ) ≤ 255 := by exact_mod_cast hb1
  have hb2q : (b2 : ℚ) ≤ 255 := by exact_mod_cast hb2
  have hb1z : (0 : ℚ) ≤ (b1 : ℚ) := Nat.cast_nonneg b1
  have hb2z : (0 : ℚ) ≤ (b2 : ℚ) := Nat.cast_nonneg b2
  have hpos : (0 : ℚ) < 127.5 := by norm_num
  have hlen : 2 * k + 1 < data.length := by
    by_contra hcon
    rw [List.get?_eq_none.mpr (le_of_not_lt hcon)] at h2
    exact Option.noConfusion h2
  have hkn : k < numDecoded data.length := by
    have hmax : k < maxSamples := hk
    simp only [numDecoded]
    omega
  refine ⟨((b1 : ℚ) - 127.5) / 127.5, ((b2 : ℚ) - 127.5) / 127.5,
    ?_, rfl, rfl, rfl, rfl, ?_, ?_, ?_, ?_, rfl⟩
  · simp only [decodedSamples, List.get?_map, List.get?_range hkn, Option.map_some',
      h1, h2]
  · rw [le_div_iff hpos]; linarith
  · rw [div_le_one hpos]; linarith
  · rw [le_div_iff hpos]; linarith
  · rw [div_le_one hpos]; linarith

/-- C1 witness: the spec's end-to-end chunk `[127, 127, 255, 0]`, second
pair `(255, 0)`. -/
theorem decoded_pair_in_unit_square_witness :
    (255 : ℕ) ≤ 255 ∧ (0 : ℕ) ≤ 255 ∧ 1 < maxSamples ∧
    ([127, 127, 255, 0] : List ℕ).get? (2 * 1) = some 255 ∧
    ([127, 127, 255, 0] : List ℕ).get? (2 * 1 + 1) = some 0 ∧
    (∃ iv qv : ℚ,
      (decodedSamples [127, 127, 255, 0]).get? 1 =
        some (mkSample (some 255) (some 0)) ∧
      (mkSample (some 255) (some 0)).i = some iv ∧
      (mkSample (some 255) (some 0)).q = some qv ∧
      iv = ((255 : ℚ) - 127.5) / 127.5 ∧
      qv = ((0 : ℚ) - 127.5) / 127.5 ∧
      -1 ≤ iv ∧ iv ≤ 1 ∧ -1 ≤ qv ∧ qv ≤ 1 ∧
      (mkSample (some 255) (some 0)).magnitude =
        some (Real.sqrt ((iv : ℝ) * (iv : ℝ) + (qv : ℝ) * (qv : ℝ)))) :=
  ⟨by decide, by decide, by decide, by decide, by decide,
    decoded_pair_in_unit_square [127, 127, 255, 0] 1 255 0
      (by decide) (by decide) (by decide) (by decide) (by decide)⟩

/-- C2: the claim asserts a chunk with zero decodable samples yields
`numSamples = 0`, no division by zero, and no NaN statistics.  Evaluating
the code at the failing inputs: an empty chunk does give `numSamples = 0`
but its statistics average by `0 / 0`, so `avgMagnitude = NaN` and
`maxMagnitude = Math.max() = -Infinity`; and a 1-byte chunk decodes one
sample (the loop reads `data[1] = undefined`), so `numSamples = 1` with a
`NaN` magnitude — not 0. -/
theorem degenerate_chunk_nan_stats :
    (processSDRData [] cfg0 0).numSamples = 0 ∧
    (processSDRData [] cfg0 0).stats.avgMagnitude = JSNum.nan ∧
    (processSDRData [] cfg0 0).stats.maxMagnitude = JSNum.neginf ∧
    (processSDRData [100] cfg0 0).numSamples = 1 ∧
    (decodedSamples [100]).map (fun s => s.magnitude) = [none] :=
  ⟨rfl, rfl, rfl, rfl, rfl⟩

/-- C3: a chunk longer than `2 * maxSamples` bytes decodes exactly
`maxSamples` samples; the decoded list depends only on the first
`2 * maxSamples` bytes; and chunk events never change module state, so the
handling of each later chunk is independent of every earlier one. -/
theorem oversized_chunk_caps_and_stateless (data : List ℕ) (cfg : SDRConfig)
    (now : ℕ) (h : 2 * maxSamples < data.length) :
    (decodedSamples data).length = maxSamples ∧
    decodedSamples data = decodedSamples (data.take (2 * maxSamples)) ∧
    (∀ (s : SdrState) (c : List ℕ) (cs : List (List ℕ)),
      runChunks s cfg now (c :: cs) =
        (sdrOnStdout s cfg now c).2 :: runChunks s cfg now cs) := by
  refine ⟨?_, ?_, fun s c cs => rfl⟩
  · simp only [decodedSamples, List.length_map, List.length_range, numDecoded]
    simp only [maxSamples] at h ⊢
    omega
  · have hlen2 : (data.take (2 * maxSamples)).length = 2 * maxSamples := by
      rw [List.length_take]
      exact min_eq_left (le_of_lt h)
    have hnum2 : numDecoded (data.take (2 * maxSamples)).length = maxSamples := by
      rw [hlen2]; simp only [numDecoded, maxSamples]; omega
    have hnum1 : numDecoded data.length = maxSamples := by
      simp only [numDecoded, maxSamples] at h ⊢
      omega
    simp only [decodedSamples, hnum1, hnum2]
    apply List.map_congr_left
    intro k hkmem
    have hk : k < maxSamples := List.mem_range.mp hkmem
    have hk1 : 2 * k < 2 * maxSamples := by omega
    have hk2 : 2 * k + 1 < 2 * maxSamples := by
      simp only [maxSamples] at hk ⊢
      omega
    rw [List.get?_take hk1, List.get?_take hk2]

/-- C3 witness: a 2050-byte chunk of zeros. -/
theorem oversized_chunk_caps_and_stateless_witness :
    2 * maxSamples < (List.replicate 2050 (0 : ℕ)).length ∧
    ((decodedSamples (List.replicate 2050 (0 : ℕ))).length = maxSamples ∧
      decodedSamples (List.replicate 2050 (0 : ℕ)) =
        decodedSamples ((List.replicate 2050 (0 : ℕ)).take (2 * maxSamples)) ∧
      (∀ (s : SdrState) (c : List ℕ) (cs : List (List ℕ)),
        runChunks s cfg0 0 (c :: cs) =
          (sdrOnStdout s cfg0 0 c).2 :: runChunks s cfg0 0 cs)) :=
  ⟨by simp only [List.length_replicate, maxSamples]; omega,
    oversized_chunk_caps_and_stateless (List.replicate 2050 0) cfg0 0
      (by simp only [List.length_replicate, maxSamples]; omega)⟩

/-- C4: for a chunk with at least one decoded sample, the delivered data
message's statistics are computed over all decoded samples (not just the
delivered subset), `samples` is the 256-element front segment of the
decoded list, `bytesReceived` is the full chunk length, and the message
echoes frequency, sample rate and the capture timestamp. -/
theorem data_message_fields (data : List ℕ) (cfg : SDRConfig) (now : ℕ)
    (_hne : decodedSamples data ≠ []) :
    (processSDRData data cfg now).stats.avgMagnitude =
      jsAvg ((decodedSamples data).map (fun s => s.magnitude)) ∧
    (processSDRData data cfg now).stats.maxMagnitude =
      jsMax ((decodedSamples data).map (fun s => s.magnitude)) ∧
    (processSDRData data cfg now).samples = (decodedSamples data).take 256 ∧
    (processSDRData data cfg now).samples.length ≤ 256 ∧
    (processSDRData data cfg now).numSamples = (decodedSamples data).length ∧
    (processSDRData data cfg now).stats.bytesReceived = data.length ∧
    (processSDRData data cfg now).frequency = cfg.frequency ∧
    (processSDRData data cfg now).sampleRate = cfg.sampleRate ∧
    (processSDRData data cfg now).timestamp = now := by
  refine ⟨rfl, rfl, rfl, ?_, rfl, rfl, rfl, rfl, rfl⟩
  simp only [processSDRData, List.length_take]
  omega

/-- C4 witness: the two-byte chunk `[127, 127]`. -/
theorem data_message_fields_witness :
    decodedSamples [127, 127] ≠ [] ∧
    ((processSDRData [127, 127] cfg0 0).stats.avgMagnitude =
      jsAvg ((decodedSamples [127, 127]).map (fun s => s.magnitude)) ∧
    (processSDRData [127, 127] cfg0 0).stats.maxMagnitude =
      jsMax ((decodedSamples [127, 127]).map (fun s => s.magnitude)) ∧
    (processSDRData [127, 127] cfg0 0).samples =
      (decodedSamples [127, 127]).take 256 ∧
    (processSDRData [127, 127] cfg0 0).samples.length ≤ 256 ∧
    (processSDRData [127, 127] cfg0 0).numSamples =
      (decodedSamples [127, 127]).length ∧
    (processSDRData [127, 127] cfg0 0).stats.bytesReceived =
      ([127, 127] : List ℕ).length ∧
    (processSDRData [127, 127] cfg0 0).frequency = cfg0.frequency ∧
    (processSDRData [127, 127] cfg0 0).sampleRate = cfg0.sampleRate ∧
    (processSDRData [127, 127] cfg0 0).timestamp = 0) :=
  ⟨by simp [decodedSamples, numDecoded, maxSamples],
    data_message_fields [127, 127] cfg0 0
      (by simp [decodedSamples, numDecoded, maxSamples])⟩

/-- C5 counterexample: in the camera module a second `startStream()` while
streaming does not tear down the first process and spawns nothing — it
returns early with "Camera already streaming" and the live handle is still
the first process. -/
theorem second_camera_start_keeps_first :
    (camStart (camStart ⟨none, false, none⟩ 1).1 2).1.cameraProcess = some 1 ∧
    (camStart (camStart ⟨none, false, none⟩ 1).1 2).2.1 = ([] : List Eff) ∧
    (camStart (camStart ⟨none, false, none⟩ 1).1 2).2.2.message =
      "Camera already streaming" ∧
    (some 1 : Option ℕ) ≠ some 2 :=
  ⟨rfl, rfl, rfl, by simp⟩

/-- C5 amended: both modules keep at most one live process after two
`start` calls, but by different policies — the SDR module kills the first
process before spawning the second (replace), while the camera module
ignores the second start and keeps the first process (no teardown, no new
spawn). -/
theorem start_twice_single_live_handle (s : SdrState) (cfg : SDRConfig)
    (cb1 cb2 p1 p2 : ℕ) (cp : Option ℕ) (fr : Option (List ℕ)) (q1 q2 : ℕ) :
    (sdrStart (sdrStart s cfg cb1 p1).1 cfg cb2 p2).1 =
      (⟨some p2, some cb2⟩ : SdrState) ∧
    (sdrStart (sdrStart s cfg cb1 p1).1 cfg cb2 p2).2 =
      [Eff.kill p1, Eff.spawn p2] ∧
    (camStart (camStart ⟨cp, false, fr⟩ q1).1 q2).1.cameraProcess = some q1 ∧
    (camStart (camStart ⟨cp, false, fr⟩ q1).1 q2).2.1 = ([] : List Eff) :=
  ⟨rfl, rfl, rfl, rfl⟩

/-- C6: stopping a live SDR session clears the registered callback, and no
subsequent stdout chunk, stderr line or close event from the stopped
process produces any delivery. -/
theorem no_delivery_after_stop (p : ℕ) (cb : Option ℕ) (cfg : SDRConfig)
    (now : ℕ) (data : List ℕ) (text : String) (code : Int) :
    (sdrStop ⟨some p, cb⟩).1.dataCallback = none ∧
    (sdrOnStdout (sdrStop ⟨some p, cb⟩).1 cfg now data).2 = [] ∧
    (sdrOnStderr (sdrStop ⟨some p, cb⟩).1 text).2 = [] ∧
    (sdrOnClose (sdrStop ⟨some p, cb⟩).1 code).2 = [] :=
  ⟨rfl, rfl, rfl, rfl⟩

/-- C7 counterexample: when the SDR process has already exited on its own
(the close handler nulls the handle but keeps the callback), a subsequent
`stopStream()` is a no-op and does NOT clear the stored callback — the
claim says the callback is cleared in every state. -/
theorem stop_after_self_exit_keeps_callback :
    (sdrStop (sdrOnClose (sdrStart ⟨none, none⟩ cfg0 0 1).1 0).1).1.dataCallback =
      some 0 ∧
    (some 0 : Option ℕ) ≠ none :=
  ⟨rfl, by simp⟩

/-- C7 amended: `stopStream()` is idempotent and total (modelled `kill`
cannot raise): run twice, the second call changes nothing and has no
effects.  When a live handle exists it kills it and clears both handle and
callback; when no handle exists it is a no-op, and a stored callback (if
any) stays registered. -/
theorem stop_idempotent_clears_only_live (cb : Option ℕ) (p : ℕ) :
    sdrStop (sdrStop ⟨some p, cb⟩).1 = ((sdrStop ⟨some p, cb⟩).1, []) ∧
    sdrStop (sdrStop ⟨none, cb⟩).1 = ((sdrStop ⟨none, cb⟩).1, []) ∧
    sdrStop ⟨some p, cb⟩ = (⟨none, none⟩, [Eff.kill p]) ∧
    sdrStop ⟨none, cb⟩ = (⟨none, cb⟩, []) :=
  ⟨rfl, rfl, rfl, rfl⟩

/-- C8 counterexample: the camera module's close handler delivers no
`Status` message at all (it only logs to the console and clears state), so
the claim's "for every supervised source" fails on the camera source. -/
theorem camera_close_emits_no_status :
    (camOnClose (camStart ⟨none, false, none⟩ 1).1 1).2 = ([] : List Eff) ∧
    (camOnClose (camStart ⟨none, false, none⟩ 1).1 1).1 =
      (⟨none, false, none⟩ : CamState) :=
  ⟨rfl, rfl⟩

/-- C8 amended: on process close with exit code `c`, the SDR module clears
the handle and, when a callback is registered, delivers
`Status{"Process stopped (exit code: c)"}` (and nothing when none is);
the camera module clears its handle, streaming flag and frame but delivers
no message. -/
theorem close_status_sdr_only (rp : Option ℕ) (cb : ℕ) (code : Int)
    (t : CamState) :
    sdrOnClose ⟨rp, some cb⟩ code =
      ((⟨none, some cb⟩ : SdrState),
        [Eff.deliver cb (OutputMessage.status
          ("Process stopped (exit code: " ++ toString code ++ ")"))]) ∧
    sdrOnClose ⟨rp, none⟩ code = ((⟨none, none⟩ : SdrState), []) ∧
    camOnClose t code = ((⟨none, false, none⟩ : CamState), []) :=
  ⟨rfl, rfl, rfl⟩

/-- C9: `checkAvailability` resolves `true` exactly when the probe exits
with code 0 before the 2-second timeout; the timer's `kill()` always runs,
so a probe that has not exited by the timeout is killed and the call
resolves `false`; no probe process is ever left orphaned. -/
theorem probe_true_iff_exit_zero_before_timeout (b : ProbeBehavior) :
    ((checkAvailability b).result = true ↔
      ∃ t code, b = ProbeBehavior.exits t code ∧ t < probeTimeoutMs ∧ code = 0) ∧
    (checkAvailability b).killSentAtTimeout = true ∧
    probeOrphaned (checkAvailability b) = false := by
  refine ⟨?_, ?_, ?_⟩
  · constructor
    · intro hres
      cases b with
      | exits t code =>
          by_cases ht : t < probeTimeoutMs
          · have hc : (code == 0) = true := by
              simpa [checkAvailability, ht] using hres
            exact ⟨t, code, rfl, ht, by simpa using hc⟩
          · simp [checkAvailability, ht] at hres
      | spawnFails => simp [checkAvailability] at hres
      | runsForever => simp [checkAvailability] at hres
    · rintro ⟨t, code, rfl, ht, rfl⟩
      simp [checkAvailability, ht]
  · cases b with
    | exits t code =>
        by_cases ht : t < probeTimeoutMs <;> simp [checkAvailability, ht]
    | spawnFails => simp [checkAvailability]
    | runsForever => simp [checkAvailability]
  · cases b with
    | exits t code =>
        by_cases ht : t < probeTimeoutMs <;>
          simp [checkAvailability, probeOrphaned, ht]
    | spawnFails => simp [checkAvailability, probeOrphaned]
    | runsForever => simp [checkAvailability, probeOrphaned]

/-- C10: after the camera `stopStream()` returns, `getCurrentFrame()` is
null and `getStreamingStatus()` is false, from every prior state; after a
process `error` event, streaming is off but the last captured frame (if
any) is still retrievable. -/
theorem camera_stop_clears_frame_error_retains (s : CamState) :
    getCurrentFrame (camStop s).1 = none ∧
    getStreamingStatus (camStop s).1 = false ∧
    getStreamingStatus (camOnError s) = false ∧
    getCurrentFrame (camOnError s) = getCurrentFrame s :=
  ⟨rfl, rfl, rfl, rfl⟩

end PiServer
